import Mathlib

/-!
# zmq_nothrow.hpp: the "throw nothing" wrapper over the ØMQ C API

A shallow embedding of `src/zmq_nothrow.hpp` (`zmq::nothrow::message_t`,
`context_t`, `socket_t`).

Modelling conventions.

* Pointers (`void *`, `const char *`, `size_t *`, `free_fn *`) are addresses,
  natural numbers, with `NULL = 0`.  `int` is `Int`, `size_t` is `Nat`; the
  wrapper performs no arithmetic on either, so no wrap-around can occur.
* The native engine (`zmq.h`, an external C library) is a parameter: a record
  `Native E` of functions over an arbitrary engine state `E`.  A native
  function that receives a `zmq_msg_t *` gets the address and the pointee and
  gives the pointee back, since the wrapper reads the `content` field.
* Every native call is recorded, with the scalar and pointer arguments the
  wrapper passed, at the end of `World.trace`.
* `assert` is the one of `<assert.h>` with `NDEBUG` not defined, as the header
  is written: a false condition stops the program there.  A method returns a
  `Res`: `status` says whether it stopped at an assertion or returned a value,
  `obj` and `world` are the objects and the world at that point.
* Objects are passed by value and do not alias each other or the buffers
  handed to the engine.
* `message_t::move`, `message_t::copy`, `poll` and `device` are not part of
  this development.
-/

namespace zmq.nothrow

/-- A machine address; address zero is the null pointer. -/
abbrev Ptr := Nat

/-- The null pointer. -/
abbrev NULL : Ptr := 0

/-- The native message structure of `zmq.h` as the wrapper sees it: the
`content` field the wrapper reads and writes, and the remaining raw storage
bytes, which only the engine interprets. -/
structure zmq_msg_t where
  content : Ptr
  rest : List Nat
deriving DecidableEq, Repr

/-- One call into the native engine, with the arguments passed.  A
`zmq_msg_t *` argument is recorded as the address of the message. -/
inductive Call where
  | zmq_msg_init (msg : Ptr)
  | zmq_msg_init_size (msg : Ptr) (size : Nat)
  | zmq_msg_init_data (msg : Ptr) (data : Ptr) (size : Nat) (ffn : Ptr) (hint : Ptr)
  | zmq_msg_close (msg : Ptr)
  | zmq_msg_data (msg : Ptr)
  | zmq_msg_size (msg : Ptr)
  | zmq_init (io_threads : Int)
  | zmq_term (context : Ptr)
  | zmq_socket (context : Ptr) (type : Int)
  | zmq_close (s : Ptr)
  | zmq_setsockopt (s : Ptr) (option : Int) (optval : Ptr) (optvallen : Nat)
  | zmq_getsockopt (s : Ptr) (option : Int) (optval : Ptr) (optvallen : Ptr)
  | zmq_bind (s : Ptr) (addr : Ptr)
  | zmq_connect (s : Ptr) (addr : Ptr)
  | zmq_send (s : Ptr) (msg : Ptr) (flags : Int)
  | zmq_recv (s : Ptr) (msg : Ptr) (flags : Int)
deriving DecidableEq, Repr

/-- The native engine: the functions of `zmq.h` the wrapper calls, over an
engine state `E`. -/
structure Native (E : Type) where
  zmq_msg_init : Ptr → zmq_msg_t → E → Int × zmq_msg_t × E
  zmq_msg_init_size : Ptr → zmq_msg_t → Nat → E → Int × zmq_msg_t × E
  zmq_msg_init_data : Ptr → zmq_msg_t → Ptr → Nat → Ptr → Ptr → E → Int × zmq_msg_t × E
  zmq_msg_close : Ptr → zmq_msg_t → E → Int × zmq_msg_t × E
  zmq_msg_data : Ptr → zmq_msg_t → E → Ptr × zmq_msg_t × E
  zmq_msg_size : Ptr → zmq_msg_t → E → Nat × zmq_msg_t × E
  zmq_init : Int → E → Ptr × E
  zmq_term : Ptr → E → Int × E
  zmq_socket : Ptr → Int → E → Ptr × E
  zmq_close : Ptr → E → Int × E
  zmq_setsockopt : Ptr → Int → Ptr → Nat → E → Int × E
  zmq_getsockopt : Ptr → Int → Ptr → Ptr → E → Int × E
  zmq_bind : Ptr → Ptr → E → Int × E
  zmq_connect : Ptr → Ptr → E → Int × E
  zmq_send : Ptr → Ptr → zmq_msg_t → Int → E → Int × zmq_msg_t × E
  zmq_recv : Ptr → Ptr → zmq_msg_t → Int → E → Int × zmq_msg_t × E

/-- The world outside the wrapper objects: the engine state and the native
calls made so far, oldest first. -/
structure World (E : Type) where
  eng : E
  trace : List Call
deriving DecidableEq, Repr

/-- The world after one more native call `c` that left the engine in `e`. -/
def World.log {E : Type} (w : World E) (c : Call) (e : E) : World E :=
  { eng := e, trace := w.trace ++ [c] }

/-- How a wrapper method ends: stopped at a failed `assert`, or returned. -/
inductive Outcome (α : Type) where
  | assert_fail
  | ret (v : α)
deriving DecidableEq, Repr

/-- Result of a wrapper method: how it ended, and the objects it works on and
the world at that point. -/
structure Res (σ α E : Type) where
  status : Outcome α
  obj : σ
  world : World E
deriving DecidableEq, Repr

/-! ## message_t -/

/-- A `message_t` object: its own address and its private `zmq_msg_t` base. -/
structure message_t where
  this : Ptr
  base : zmq_msg_t
deriving DecidableEq, Repr

/-- Constructor `message_t()`, for an object placed at `this` over storage
holding `storage`: `content = this`, the other fields are left as they are. -/
def message_t.new (this : Ptr) (storage : zmq_msg_t) : message_t :=
  { this := this, base := { storage with content := this } }

/-- Method `int init()`. -/
def message_t.init {E : Type} (N : Native E) (self : message_t) (w : World E) :
    Res message_t Int E :=
  if self.base.content = self.this then
    let r := N.zmq_msg_init self.this self.base w.eng
    { status := .ret r.1, obj := { self with base := r.2.1 },
      world := w.log (.zmq_msg_init self.this) r.2.2 }
  else
    { status := .assert_fail, obj := self, world := w }

/-- Method `int init(size_t size_)`. -/
def message_t.init_size {E : Type} (N : Native E) (self : message_t) (size_ : Nat)
    (w : World E) : Res message_t Int E :=
  if self.base.content = self.this then
    let r := N.zmq_msg_init_size self.this self.base size_ w.eng
    { status := .ret r.1, obj := { self with base := r.2.1 },
      world := w.log (.zmq_msg_init_size self.this size_) r.2.2 }
  else
    { status := .assert_fail, obj := self, world := w }

/-- Method `int init(void *data_, size_t size_, free_fn *ffn_, void *hint_)`. -/
def message_t.init_data {E : Type} (N : Native E) (self : message_t)
    (data_ : Ptr) (size_ : Nat) (ffn_ : Ptr) (hint_ : Ptr) (w : World E) :
    Res message_t Int E :=
  if self.base.content = self.this then
    let r := N.zmq_msg_init_data self.this self.base data_ size_ ffn_ hint_ w.eng
    { status := .ret r.1, obj := { self with base := r.2.1 },
      world := w.log (.zmq_msg_init_data self.this data_ size_ ffn_ hint_) r.2.2 }
  else
    { status := .assert_fail, obj := self, world := w }

/-- Destructor `~message_t()`: closes the native message unless
`content == this`; the status of the close is dropped and nothing is
asserted. -/
def message_t.destroy {E : Type} (N : Native E) (self : message_t) (w : World E) :
    Res message_t Unit E :=
  if self.base.content ≠ self.this then
    let c := N.zmq_msg_close self.this self.base w.eng
    { status := .ret (), obj := { self with base := c.2.1 },
      world := w.log (.zmq_msg_close self.this) c.2.2 }
  else
    { status := .ret (), obj := self, world := w }

/-- Method `int rebuild()`. -/
def message_t.rebuild {E : Type} (N : Native E) (self : message_t) (w : World E) :
    Res message_t Int E :=
  if self.base.content ≠ self.this then
    let c := N.zmq_msg_close self.this self.base w.eng
    let w1 := w.log (.zmq_msg_close self.this) c.2.2
    if c.1 ≠ 0 then
      { status := .ret c.1, obj := { self with base := c.2.1 }, world := w1 }
    else
      let r := N.zmq_msg_init self.this c.2.1 w1.eng
      { status := .ret r.1, obj := { self with base := r.2.1 },
        world := w1.log (.zmq_msg_init self.this) r.2.2 }
  else
    { status := .assert_fail, obj := self, world := w }

/-- Method `int rebuild(size_t size_)`. -/
def message_t.rebuild_size {E : Type} (N : Native E) (self : message_t) (size_ : Nat)
    (w : World E) : Res message_t Int E :=
  if self.base.content ≠ self.this then
    let c := N.zmq_msg_close self.this self.base w.eng
    let w1 := w.log (.zmq_msg_close self.this) c.2.2
    if c.1 ≠ 0 then
      { status := .ret c.1, obj := { self with base := c.2.1 }, world := w1 }
    else
      let r := N.zmq_msg_init_size self.this c.2.1 size_ w1.eng
      { status := .ret r.1, obj := { self with base := r.2.1 },
        world := w1.log (.zmq_msg_init_size self.this size_) r.2.2 }
  else
    { status := .assert_fail, obj := self, world := w }

/-- Method `int rebuild(void *data_, size_t size_, free_fn *ffn_, void *hint_)`. -/
def message_t.rebuild_data {E : Type} (N : Native E) (self : message_t)
    (data_ : Ptr) (size_ : Nat) (ffn_ : Ptr) (hint_ : Ptr) (w : World E) :
    Res message_t Int E :=
  if self.base.content ≠ self.this then
    let c := N.zmq_msg_close self.this self.base w.eng
    let w1 := w.log (.zmq_msg_close self.this) c.2.2
    if c.1 ≠ 0 then
      { status := .ret c.1, obj := { self with base := c.2.1 }, world := w1 }
    else
      let r := N.zmq_msg_init_data self.this c.2.1 data_ size_ ffn_ hint_ w1.eng
      { status := .ret r.1, obj := { self with base := r.2.1 },
        world := w1.log (.zmq_msg_init_data self.this data_ size_ ffn_ hint_) r.2.2 }
  else
    { status := .assert_fail, obj := self, world := w }

/-- Method `void *data()`. -/
def message_t.data {E : Type} (N : Native E) (self : message_t) (w : World E) :
    Res message_t Ptr E :=
  if self.base.content ≠ self.this then
    let r := N.zmq_msg_data self.this self.base w.eng
    { status := .ret r.1, obj := { self with base := r.2.1 },
      world := w.log (.zmq_msg_data self.this) r.2.2 }
  else
    { status := .assert_fail, obj := self, world := w }

/-- Method `size_t size() const`; the native function takes the message
through a `const_cast`, as a plain `zmq_msg_t *`. -/
def message_t.size {E : Type} (N : Native E) (self : message_t) (w : World E) :
    Res message_t Nat E :=
  if self.base.content ≠ self.this then
    let r := N.zmq_msg_size self.this self.base w.eng
    { status := .ret r.1, obj := { self with base := r.2.1 },
      world := w.log (.zmq_msg_size self.this) r.2.2 }
  else
    { status := .assert_fail, obj := self, world := w }

/-! ## context_t -/

/-- A `context_t` object: the private field `ptr`. -/
structure context_t where
  ptr : Ptr
deriving DecidableEq, Repr

/-- Constructor `context_t() : ptr(0)`. -/
def context_t.new : context_t := { ptr := NULL }

/-- Method `int init(int io_threads)`. -/
def context_t.init {E : Type} (N : Native E) (self : context_t) (io_threads : Int)
    (w : World E) : Res context_t Int E :=
  if self.ptr = NULL then
    let r := N.zmq_init io_threads w.eng
    { status := .ret (if r.1 ≠ NULL then 0 else -1), obj := { ptr := r.1 },
      world := w.log (.zmq_init io_threads) r.2 }
  else
    { status := .assert_fail, obj := self, world := w }

/-- Destructor `~context_t()`: `if (ptr) assert(zmq_term(ptr) == 0);`. -/
def context_t.destroy {E : Type} (N : Native E) (self : context_t) (w : World E) :
    Res context_t Unit E :=
  if self.ptr ≠ NULL then
    let r := N.zmq_term self.ptr w.eng
    { status := if r.1 = 0 then .ret () else .assert_fail, obj := self,
      world := w.log (.zmq_term self.ptr) r.2 }
  else
    { status := .ret (), obj := self, world := w }

/-- Conversion `operator void*()` of `context_t`. -/
def context_t.to_voidp {E : Type} (self : context_t) (w : World E) :
    Res context_t Ptr E :=
  if self.ptr ≠ NULL then
    { status := .ret self.ptr, obj := self, world := w }
  else
    { status := .assert_fail, obj := self, world := w }

/-! ## socket_t -/

/-- A `socket_t` object: the private field `ptr`. -/
structure socket_t where
  ptr : Ptr
deriving DecidableEq, Repr

/-- Constructor `socket_t() : ptr(0)`. -/
def socket_t.new : socket_t := { ptr := NULL }

/-- Method `int init(context_t &context_, int type_)`.  The context's field
`ptr` is read directly (`socket_t` is a friend of `context_t`), not through
`operator void*()`. -/
def socket_t.init {E : Type} (N : Native E) (self : socket_t) (context_ : context_t)
    (type_ : Int) (w : World E) : Res socket_t Int E :=
  if self.ptr = NULL then
    let r := N.zmq_socket context_.ptr type_ w.eng
    { status := .ret (if r.1 ≠ NULL then 0 else -1), obj := { ptr := r.1 },
      world := w.log (.zmq_socket context_.ptr type_) r.2 }
  else
    { status := .assert_fail, obj := self, world := w }

/-- Destructor `~socket_t()`: `if (ptr) assert(zmq_close(ptr) == 0);`. -/
def socket_t.destroy {E : Type} (N : Native E) (self : socket_t) (w : World E) :
    Res socket_t Unit E :=
  if self.ptr ≠ NULL then
    let r := N.zmq_close self.ptr w.eng
    { status := if r.1 = 0 then .ret () else .assert_fail, obj := self,
      world := w.log (.zmq_close self.ptr) r.2 }
  else
    { status := .ret (), obj := self, world := w }

/-- Conversion `operator void*()` of `socket_t`. -/
def socket_t.to_voidp {E : Type} (self : socket_t) (w : World E) :
    Res socket_t Ptr E :=
  if self.ptr ≠ NULL then
    { status := .ret self.ptr, obj := self, world := w }
  else
    { status := .assert_fail, obj := self, world := w }

/-- Method `int setsockopt(int option_, const void *optval_, size_t optvallen_)`. -/
def socket_t.setsockopt {E : Type} (N : Native E) (self : socket_t) (option_ : Int)
    (optval_ : Ptr) (optvallen_ : Nat) (w : World E) : Res socket_t Int E :=
  if self.ptr ≠ NULL then
    let r := N.zmq_setsockopt self.ptr option_ optval_ optvallen_ w.eng
    { status := .ret r.1, obj := self,
      world := w.log (.zmq_setsockopt self.ptr option_ optval_ optvallen_) r.2 }
  else
    { status := .assert_fail, obj := self, world := w }

/-- Method `int getsockopt(int option_, void *optval_, size_t *optvallen_)`. -/
def socket_t.getsockopt {E : Type} (N : Native E) (self : socket_t) (option_ : Int)
    (optval_ : Ptr) (optvallen_ : Ptr) (w : World E) : Res socket_t Int E :=
  if self.ptr ≠ NULL then
    let r := N.zmq_getsockopt self.ptr option_ optval_ optvallen_ w.eng
    { status := .ret r.1, obj := self,
      world := w.log (.zmq_getsockopt self.ptr option_ optval_ optvallen_) r.2 }
  else
    { status := .assert_fail, obj := self, world := w }

/-- Method `int bind(const char *addr_)`. -/
def socket_t.bind {E : Type} (N : Native E) (self : socket_t) (addr_ : Ptr)
    (w : World E) : Res socket_t Int E :=
  if self.ptr ≠ NULL then
    let r := N.zmq_bind self.ptr addr_ w.eng
    { status := .ret r.1, obj := self, world := w.log (.zmq_bind self.ptr addr_) r.2 }
  else
    { status := .assert_fail, obj := self, world := w }

/-- Method `int connect(const char *addr_)`. -/
def socket_t.connect {E : Type} (N : Native E) (self : socket_t) (addr_ : Ptr)
    (w : World E) : Res socket_t Int E :=
  if self.ptr ≠ NULL then
    let r := N.zmq_connect self.ptr addr_ w.eng
    { status := .ret r.1, obj := self, world := w.log (.zmq_connect self.ptr addr_) r.2 }
  else
    { status := .assert_fail, obj := self, world := w }

/-- Method `int send(message_t &msg_, int flags_)`. -/
def socket_t.send {E : Type} (N : Native E) (self : socket_t) (msg_ : message_t)
    (flags_ : Int) (w : World E) : Res (socket_t × message_t) Int E :=
  if self.ptr ≠ NULL then
    let r := N.zmq_send self.ptr msg_.this msg_.base flags_ w.eng
    { status := .ret r.1, obj := (self, { msg_ with base := r.2.1 }),
      world := w.log (.zmq_send self.ptr msg_.this flags_) r.2.2 }
  else
    { status := .assert_fail, obj := (self, msg_), world := w }

/-- Method `int recv(message_t *msg_, int flags_)`, for `msg_` pointing to a
message object. -/
def socket_t.recv {E : Type} (N : Native E) (self : socket_t) (msg_ : message_t)
    (flags_ : Int) (w : World E) : Res (socket_t × message_t) Int E :=
  if self.ptr ≠ NULL then
    let r := N.zmq_recv self.ptr msg_.this msg_.base flags_ w.eng
    { status := .ret r.1, obj := (self, { msg_ with base := r.2.1 }),
      world := w.log (.zmq_recv self.ptr msg_.this flags_) r.2.2 }
  else
    { status := .assert_fail, obj := (self, msg_), world := w }

/-! ## Sequences of socket operations -/

/-- The member functions of `socket_t` other than the destructor, each with
the arguments of one call. -/
inductive socket_op where
  | init (context_ : context_t) (type_ : Int)
  | to_voidp
  | setsockopt (option_ : Int) (optval_ : Ptr) (optvallen_ : Nat)
  | getsockopt (option_ : Int) (optval_ : Ptr) (optvallen_ : Ptr)
  | bind (addr_ : Ptr)
  | connect (addr_ : Ptr)
  | send (msg_ : message_t) (flags_ : Int)
  | recv (msg_ : message_t) (flags_ : Int)
deriving DecidableEq, Repr

/-- Whether the operation is `init`. -/
def socket_op.is_init : socket_op → Bool
  | .init _ _ => true
  | _ => false

/-- A result with the returned value and the other objects dropped: how the
call ended, the socket and the world. -/
def Res.on_socket {σ α E : Type} (r : Res σ α E) (s : socket_t) : Res socket_t Unit E :=
  { status := match r.status with
      | .assert_fail => .assert_fail
      | .ret _ => .ret (),
    obj := s, world := r.world }

/-- One call of a member function on the socket `s`. -/
def socket_t.apply {E : Type} (N : Native E) (op : socket_op) (s : socket_t)
    (w : World E) : Res socket_t Unit E :=
  match op with
  | .init context_ type_ =>
      (socket_t.init N s context_ type_ w).on_socket (socket_t.init N s context_ type_ w).obj
  | .to_voidp => (socket_t.to_voidp s w).on_socket (socket_t.to_voidp s w).obj
  | .setsockopt o v l =>
      (socket_t.setsockopt N s o v l w).on_socket (socket_t.setsockopt N s o v l w).obj
  | .getsockopt o v l =>
      (socket_t.getsockopt N s o v l w).on_socket (socket_t.getsockopt N s o v l w).obj
  | .bind a => (socket_t.bind N s a w).on_socket (socket_t.bind N s a w).obj
  | .connect a => (socket_t.connect N s a w).on_socket (socket_t.connect N s a w).obj
  | .send m f => (socket_t.send N s m f w).on_socket (socket_t.send N s m f w).obj.1
  | .recv m f => (socket_t.recv N s m f w).on_socket (socket_t.recv N s m f w).obj.1

/-- A sequence of calls on one socket, in order; the run ends at the first
call that stops at an assertion. -/
def socket_t.run {E : Type} (N : Native E) : List socket_op → socket_t → World E →
    Res socket_t Unit E
  | [], s, w => { status := .ret (), obj := s, world := w }
  | op :: ops, s, w =>
    match (socket_t.apply N op s w).status with
    | .assert_fail => socket_t.apply N op s w
    | .ret _ => socket_t.run N ops (socket_t.apply N op s w).obj (socket_t.apply N op s w).world

/-! ## A small native engine for concrete runs -/

/-- State of the small engine: the next handle it hands out. -/
structure ToyEngine where
  next : Ptr
deriving DecidableEq, Repr

/-- The marker the small engine writes into `content` for a message whose
bytes are stored inline. -/
abbrev TOY_VSM : Ptr := 32

/-- A small deterministic engine in the manner of the native library.
Messages keep their length in the first byte of `rest`; contexts and sockets
are fresh non-null handles; a context needs a non-negative thread count, a
socket needs a non-null context, and an option value of length zero is
rejected with status `-1`. -/
def toyNative : Native ToyEngine where
  zmq_msg_init := fun _ _ e => (0, { content := TOY_VSM, rest := [0] }, e)
  zmq_msg_init_size := fun _ _ n e => (0, { content := TOY_VSM, rest := [n] }, e)
  zmq_msg_init_data := fun _ _ data n _ _ e => (0, { content := data, rest := [n] }, e)
  zmq_msg_close := fun _ _ e => (0, { content := TOY_VSM, rest := [0] }, e)
  zmq_msg_data := fun a m e => (a + 1, m, e)
  zmq_msg_size := fun _ m e => (m.rest.headD 0, m, e)
  zmq_init := fun io e => if io < 0 then (NULL, e) else (e.next, { next := e.next + 1 })
  zmq_term := fun _ e => (0, e)
  zmq_socket := fun c _ e => if c = NULL then (NULL, e) else (e.next, { next := e.next + 1 })
  zmq_close := fun _ e => (0, e)
  zmq_setsockopt := fun _ _ _ len e => if len = 0 then (-1, e) else (0, e)
  zmq_getsockopt := fun _ _ _ _ e => (0, e)
  zmq_bind := fun _ _ e => (0, e)
  zmq_connect := fun _ _ e => (0, e)
  zmq_send := fun _ _ _ _ e => (0, { content := TOY_VSM, rest := [0] }, e)
  zmq_recv := fun _ _ _ _ e => (0, { content := TOY_VSM, rest := [3] }, e)

/-- A fresh world for the small engine: first handle 7, no call made yet. -/
def toyWorld : World ToyEngine := { eng := { next := 7 }, trace := [] }

/-- The small engine after `context_t ctx; ctx.init(1);` from `toyWorld`. -/
def toyContext : Res context_t Int ToyEngine :=
  context_t.init toyNative context_t.new 1 toyWorld

/-- The small engine after `socket_t s; s.init(ctx, 2);` on the context of
`toyContext`. -/
def toySocket : Res socket_t Int ToyEngine :=
  socket_t.init toyNative socket_t.new toyContext.obj 2 toyContext.world

/-- An engine like `toyNative` whose message close fails with status `5`. -/
def toyNativeCloseFails : Native ToyEngine :=
  { toyNative with zmq_msg_close := fun _ m e => (5, m, e) }

/-! ## The sequence construct, `init()`, `rebuild(n)`, `size()` -/

/-- First step of `message_t m; m.init(); m.rebuild(n); m.size();` for a
message constructed at `this`: the state after `m.init()`. -/
def construct_init {E : Type} (N : Native E) (this : Ptr) (storage : zmq_msg_t)
    (w : World E) : Res message_t Int E :=
  message_t.init N (message_t.new this storage) w

/-- Second step: `m.rebuild(n)` on the message and world left by `m.init()`. -/
def construct_init_rebuild {E : Type} (N : Native E) (this : Ptr) (storage : zmq_msg_t)
    (n : Nat) (w : World E) : Res message_t Int E :=
  message_t.rebuild_size N (construct_init N this storage w).obj n
    (construct_init N this storage w).world

/-- Third step: `m.size()` on the message and world left by `m.rebuild(n)`. -/
def construct_init_rebuild_size {E : Type} (N : Native E) (this : Ptr)
    (storage : zmq_msg_t) (n : Nat) (w : World E) : Res message_t Nat E :=
  message_t.size N (construct_init_rebuild N this storage n w).obj
    (construct_init_rebuild N this storage n w).world

/-! ## Theorems -/

section Theorems

variable {E : Type}

/-- C1: on a context whose handle is null, `init(io_threads)` makes exactly one
native call `zmq_init(io_threads)`; when that returns a non-null handle, `init`
returns 0 and stores the handle; when it returns null, `init` returns -1 and
the handle stays null; no other value is returned. -/
theorem context_init_status (N : Native E) (self : context_t) (io_threads : Int)
    (w : World E) (h : self.ptr = NULL) :
    ((N.zmq_init io_threads w.eng).1 ≠ NULL →
        (context_t.init N self io_threads w).status = Outcome.ret 0 ∧
        (context_t.init N self io_threads w).obj.ptr = (N.zmq_init io_threads w.eng).1) ∧
    ((N.zmq_init io_threads w.eng).1 = NULL →
        (context_t.init N self io_threads w).status = Outcome.ret (-1) ∧
        (context_t.init N self io_threads w).obj.ptr = NULL) ∧
    ((context_t.init N self io_threads w).status = Outcome.ret 0 ∨
        (context_t.init N self io_threads w).status = Outcome.ret (-1)) ∧
    (context_t.init N self io_threads w).world =
        w.log (Call.zmq_init io_threads) (N.zmq_init io_threads w.eng).2 := by
  refine ⟨?_, ?_, ?_, ?_⟩
  · intro hp
    simp [context_t.init, h, hp]
  · intro hp
    simp [context_t.init, h, hp]
  · by_cases hp : (N.zmq_init io_threads w.eng).1 = 0
    · right
      simp [context_t.init, h, hp]
    · left
      simp [context_t.init, h, hp]
  · simp [context_t.init, h]

/-- Witness for C1 on the small engine: a fresh context, one I/O thread. -/
theorem context_init_status_witness :
    context_t.new.ptr = NULL ∧
    (context_t.init toyNative context_t.new 1 toyWorld).status = Outcome.ret 0 ∧
    (context_t.init toyNative context_t.new 1 toyWorld).obj.ptr = 7 :=
  ⟨rfl, (context_init_status toyNative context_t.new 1 toyWorld rfl).1 (by decide)⟩

/-- C5: `init` on a context that already holds a non-null handle stops at the
assertion: no native call is made and the stored handle is unchanged.  A
context on which an earlier `init` returned 0 holds a non-null handle. -/
theorem context_init_twice_rejected (N : Native E) (self : context_t) (io_threads : Int)
    (w : World E) (h : self.ptr ≠ NULL) :
    context_t.init N self io_threads w =
        { status := Outcome.assert_fail, obj := self, world := w } ∧
    (∀ (c0 : context_t) (io0 : Int) (w0 : World E),
        (context_t.init N c0 io0 w0).status = Outcome.ret 0 →
        (context_t.init N c0 io0 w0).obj.ptr ≠ NULL ∧
        context_t.init N (context_t.init N c0 io0 w0).obj io_threads
            (context_t.init N c0 io0 w0).world =
          { status := Outcome.assert_fail, obj := (context_t.init N c0 io0 w0).obj,
            world := (context_t.init N c0 io0 w0).world }) := by
  have key : ∀ (c : context_t) (v : World E), c.ptr ≠ NULL →
      context_t.init N c io_threads v =
        { status := Outcome.assert_fail, obj := c, world := v } := by
    intro c v hc
    simp only [context_t.init]
    rw [if_neg hc]
  refine ⟨key self w h, ?_⟩
  intro c0 io0 w0 h0
  have hne : (context_t.init N c0 io0 w0).obj.ptr ≠ NULL := by
    by_cases hc : c0.ptr = 0
    · by_cases hp : (N.zmq_init io0 w0.eng).1 = 0
      · simp [context_t.init, hc, hp] at h0
      · simpa [context_t.init, hc] using hp
    · simp [context_t.init, hc] at h0
  exact ⟨hne, key _ _ hne⟩

/-- Witness for C5 on the small engine: `init` twice on the same context. -/
theorem context_init_twice_rejected_witness :
    (context_t.init toyNative context_t.new 1 toyWorld).obj.ptr ≠ NULL ∧
    context_t.init toyNative (context_t.init toyNative context_t.new 1 toyWorld).obj 1
        (context_t.init toyNative context_t.new 1 toyWorld).world =
      { status := Outcome.assert_fail,
        obj := (context_t.init toyNative context_t.new 1 toyWorld).obj,
        world := (context_t.init toyNative context_t.new 1 toyWorld).world } :=
  ⟨by decide,
   (context_init_twice_rejected toyNative
      (context_t.init toyNative context_t.new 1 toyWorld).obj 1
      (context_t.init toyNative context_t.new 1 toyWorld).world (by decide)).1⟩

/-- C3: a default-constructed message has `content == this` (the sentinel
state), and on every message in that state `size()` and `data()` stop at the
assertion: no value is returned, no native call is made, the message and the
engine are untouched. -/
theorem message_sentinel_misuse (N : Native E) (this : Ptr) (storage : zmq_msg_t)
    (m : message_t) (w : World E) (h : m.base.content = m.this) :
    (message_t.new this storage).base.content = (message_t.new this storage).this ∧
    message_t.size N m w = { status := Outcome.assert_fail, obj := m, world := w } ∧
    message_t.data N m w = { status := Outcome.assert_fail, obj := m, world := w } := by
  refine ⟨rfl, ?_, ?_⟩
  · simp [message_t.size, h]
  · simp [message_t.data, h]

/-- Witness for C3 on the small engine: the message constructed at address
100. -/
theorem message_sentinel_misuse_witness :
    (message_t.size toyNative (message_t.new 100 { content := 0, rest := [] }) toyWorld).status
      = Outcome.assert_fail ∧
    (message_t.data toyNative (message_t.new 100 { content := 0, rest := [] }) toyWorld).world
      = toyWorld :=
  ⟨congrArg Res.status (message_sentinel_misuse toyNative 100 { content := 0, rest := [] }
      (message_t.new 100 { content := 0, rest := [] }) toyWorld rfl).2.1,
   congrArg Res.world (message_sentinel_misuse toyNative 100 { content := 0, rest := [] }
      (message_t.new 100 { content := 0, rest := [] }) toyWorld rfl).2.2⟩

/-- C9: the destructor of a message never stops at an assertion, whatever the
native close returns.  When `content != this` it applies the native
`zmq_msg_close` to the message exactly once: the message and the engine are
what that call left, and the call is the one recorded.  When `content == this`
it makes no native call and leaves the message and the world as they are.  So
the destructor makes one more native call if and only if `content != this`. -/
theorem message_destroy_closes_once (N : Native E) (m : message_t) (w : World E) :
    (message_t.destroy N m w).status = Outcome.ret () ∧
    (m.base.content ≠ m.this →
      message_t.destroy N m w =
        { status := Outcome.ret (),
          obj := { m with base := (N.zmq_msg_close m.this m.base w.eng).2.1 },
          world := { eng := (N.zmq_msg_close m.this m.base w.eng).2.2,
                     trace := w.trace ++ [Call.zmq_msg_close m.this] } }) ∧
    (m.base.content = m.this →
      message_t.destroy N m w = { status := Outcome.ret (), obj := m, world := w }) ∧
    (message_t.destroy N m w).world.trace =
      w.trace ++ (if m.base.content ≠ m.this then [Call.zmq_msg_close m.this] else []) ∧
    ((message_t.destroy N m w).world.trace.length = w.trace.length + 1 ↔
      m.base.content ≠ m.this) := by
  by_cases h : m.base.content = m.this
  · simp [message_t.destroy, h]
  · refine ⟨?_, ?_, ?_, ?_, ?_⟩
    · simp [message_t.destroy, h]
    · intro _
      simp only [message_t.destroy]
      rw [if_pos h]
      rfl
    · intro h0
      exact absurd h0 h
    · simp [message_t.destroy, h, World.log]
    · simp [message_t.destroy, h, World.log]

/-- Witness for C9.  On the engine whose close returns 5, destroying the
message at address 100 with `content = 32` returns after the one native close,
which left the message as it was; on the small engine, destroying the message
just constructed at address 100 makes no native call. -/
theorem message_destroy_closes_once_witness :
    message_t.destroy toyNativeCloseFails
        { this := 100, base := { content := 32, rest := [4] } } toyWorld =
      { status := Outcome.ret (),
        obj := { this := 100, base := { content := 32, rest := [4] } },
        world := { eng := { next := 7 }, trace := [Call.zmq_msg_close 100] } } ∧
    message_t.destroy toyNative (message_t.new 100 { content := 0, rest := [] }) toyWorld =
      { status := Outcome.ret (), obj := message_t.new 100 { content := 0, rest := [] },
        world := toyWorld } :=
  ⟨(message_destroy_closes_once toyNativeCloseFails
      { this := 100, base := { content := 32, rest := [4] } } toyWorld).2.1 (by decide),
   (message_destroy_closes_once toyNative (message_t.new 100 { content := 0, rest := [] })
      toyWorld).2.2.1 rfl⟩

/-- C6: on a socket with an acquired handle, `setsockopt` does not stop at an
assertion; it makes the one native call `zmq_setsockopt` on that handle with
the same option, buffer and length, and returns its status unchanged, so a
non-zero native status is returned as that non-zero status. -/
theorem setsockopt_returns_native_status (N : Native E) (s : socket_t) (option_ : Int)
    (optval_ : Ptr) (optvallen_ : Nat) (w : World E) (h : s.ptr ≠ NULL) :
    socket_t.setsockopt N s option_ optval_ optvallen_ w =
      { status := Outcome.ret (N.zmq_setsockopt s.ptr option_ optval_ optvallen_ w.eng).1,
        obj := s,
        world := w.log (Call.zmq_setsockopt s.ptr option_ optval_ optvallen_)
          (N.zmq_setsockopt s.ptr option_ optval_ optvallen_ w.eng).2 } ∧
    (socket_t.setsockopt N s option_ optval_ optvallen_ w).status ≠ Outcome.assert_fail ∧
    ((N.zmq_setsockopt s.ptr option_ optval_ optvallen_ w.eng).1 ≠ 0 →
      ∃ rc : Int, rc ≠ 0 ∧
        (socket_t.setsockopt N s option_ optval_ optvallen_ w).status = Outcome.ret rc) := by
  have e : socket_t.setsockopt N s option_ optval_ optvallen_ w =
      { status := Outcome.ret (N.zmq_setsockopt s.ptr option_ optval_ optvallen_ w.eng).1,
        obj := s,
        world := w.log (Call.zmq_setsockopt s.ptr option_ optval_ optvallen_)
          (N.zmq_setsockopt s.ptr option_ optval_ optvallen_ w.eng).2 } := by
    simp only [socket_t.setsockopt]
    rw [if_pos h]
  refine ⟨e, ?_, ?_⟩
  · rw [e]
    simp
  · intro hrc
    exact ⟨_, hrc, by rw [e]⟩

/-- Witness for C6 on the small engine: an option value of length zero on the
socket with handle 7 is rejected with status -1. -/
theorem setsockopt_returns_native_status_witness :
    (socket_t.setsockopt toyNative { ptr := 7 } 6 200 0 toyWorld).status = Outcome.ret (-1) ∧
    (socket_t.setsockopt toyNative { ptr := 7 } 6 200 0 toyWorld).world.trace =
      [Call.zmq_setsockopt 7 6 200 0] :=
  ⟨congrArg Res.status
      (setsockopt_returns_native_status toyNative { ptr := 7 } 6 200 0 toyWorld (by decide)).1,
   congrArg (fun r => r.world.trace)
      (setsockopt_returns_native_status toyNative { ptr := 7 } 6 200 0 toyWorld (by decide)).1⟩

/-- C2: on a message with `content != this`, each of the three `rebuild`
variants first calls the native close; when the close returns a non-zero `rc`
the variant returns `rc` and the close is the only native call made, and when
the close returns 0 the variant calls the matching native acquisition next and
returns its status. -/
theorem rebuild_two_step (N : Native E) (m : message_t) (size_ : Nat) (data_ : Ptr)
    (ffn_ : Ptr) (hint_ : Ptr) (w : World E) (h : m.base.content ≠ m.this) :
    ((N.zmq_msg_close m.this m.base w.eng).1 ≠ 0 →
      (message_t.rebuild N m w).status = Outcome.ret (N.zmq_msg_close m.this m.base w.eng).1 ∧
      (message_t.rebuild N m w).world.trace = w.trace ++ [Call.zmq_msg_close m.this] ∧
      (message_t.rebuild_size N m size_ w).status =
        Outcome.ret (N.zmq_msg_close m.this m.base w.eng).1 ∧
      (message_t.rebuild_size N m size_ w).world.trace =
        w.trace ++ [Call.zmq_msg_close m.this] ∧
      (message_t.rebuild_data N m data_ size_ ffn_ hint_ w).status =
        Outcome.ret (N.zmq_msg_close m.this m.base w.eng).1 ∧
      (message_t.rebuild_data N m data_ size_ ffn_ hint_ w).world.trace =
        w.trace ++ [Call.zmq_msg_close m.this]) ∧
    ((N.zmq_msg_close m.this m.base w.eng).1 = 0 →
      (message_t.rebuild N m w).status =
        Outcome.ret (N.zmq_msg_init m.this (N.zmq_msg_close m.this m.base w.eng).2.1
          (N.zmq_msg_close m.this m.base w.eng).2.2).1 ∧
      (message_t.rebuild N m w).world.trace =
        w.trace ++ [Call.zmq_msg_close m.this, Call.zmq_msg_init m.this] ∧
      (message_t.rebuild_size N m size_ w).status =
        Outcome.ret (N.zmq_msg_init_size m.this (N.zmq_msg_close m.this m.base w.eng).2.1 size_
          (N.zmq_msg_close m.this m.base w.eng).2.2).1 ∧
      (message_t.rebuild_size N m size_ w).world.trace =
        w.trace ++ [Call.zmq_msg_close m.this, Call.zmq_msg_init_size m.this size_] ∧
      (message_t.rebuild_data N m data_ size_ ffn_ hint_ w).status =
        Outcome.ret (N.zmq_msg_init_data m.this (N.zmq_msg_close m.this m.base w.eng).2.1
          data_ size_ ffn_ hint_ (N.zmq_msg_close m.this m.base w.eng).2.2).1 ∧
      (message_t.rebuild_data N m data_ size_ ffn_ hint_ w).world.trace =
        w.trace ++ [Call.zmq_msg_close m.this,
          Call.zmq_msg_init_data m.this data_ size_ ffn_ hint_]) := by
  constructor
  · intro hrc
    simp [message_t.rebuild, message_t.rebuild_size, message_t.rebuild_data, h, hrc,
      World.log]
  · intro hrc
    simp [message_t.rebuild, message_t.rebuild_size, message_t.rebuild_data, h, hrc,
      World.log]

/-- Witness for C2.  On the engine whose close returns 5, `rebuild()` returns
5 after the close alone; on the small engine, whose close returns 0,
`rebuild(4)` returns the status of `zmq_msg_init_size`, called after the
close. -/
theorem rebuild_two_step_witness :
    ((message_t.rebuild toyNativeCloseFails
        { this := 100, base := { content := 32, rest := [0] } } toyWorld).status
      = Outcome.ret 5 ∧
     (message_t.rebuild toyNativeCloseFails
        { this := 100, base := { content := 32, rest := [0] } } toyWorld).world.trace
      = [Call.zmq_msg_close 100]) ∧
    ((message_t.rebuild_size toyNative
        { this := 100, base := { content := 32, rest := [0] } } 4 toyWorld).status
      = Outcome.ret 0 ∧
     (message_t.rebuild_size toyNative
        { this := 100, base := { content := 32, rest := [0] } } 4 toyWorld).world.trace
      = [Call.zmq_msg_close 100, Call.zmq_msg_init_size 100 4]) :=
  ⟨⟨((rebuild_two_step toyNativeCloseFails
        { this := 100, base := { content := 32, rest := [0] } }
        4 300 0 0 toyWorld (by decide)).1 (by decide)).1,
    ((rebuild_two_step toyNativeCloseFails
        { this := 100, base := { content := 32, rest := [0] } }
        4 300 0 0 toyWorld (by decide)).1 (by decide)).2.1⟩,
   ⟨((rebuild_two_step toyNative { this := 100, base := { content := 32, rest := [0] } }
        4 300 0 0 toyWorld (by decide)).2 (by decide)).2.2.1,
    ((rebuild_two_step toyNative { this := 100, base := { content := 32, rest := [0] } }
        4 300 0 0 toyWorld (by decide)).2 (by decide)).2.2.2.1⟩⟩

@[simp]
theorem World.log_eng (w : World E) (c : Call) (e : E) : (w.log c e).eng = e := rfl

@[simp]
theorem World.log_trace (w : World E) (c : Call) (e : E) :
    (w.log c e).trace = w.trace ++ [c] := rfl

/-- What `init()` does on the default-constructed message: it does not stop at
the assertion, keeps the address, and a status 0 is the status of a native
`zmq_msg_init` on this address, whose message is the one stored. -/
theorem construct_init_facts (N : Native E) (this : Ptr) (storage : zmq_msg_t)
    (w : World E) :
    (construct_init N this storage w).status ≠ Outcome.assert_fail ∧
    (construct_init N this storage w).obj.this = this ∧
    ((construct_init N this storage w).status = Outcome.ret 0 →
      ∃ (m : zmq_msg_t) (e : E), (N.zmq_msg_init this m e).1 = 0 ∧
        (construct_init N this storage w).obj.base = (N.zmq_msg_init this m e).2.1) := by
  refine ⟨?_, ?_, ?_⟩
  · simp [construct_init, message_t.init, message_t.new]
  · simp [construct_init, message_t.init, message_t.new]
  · intro h
    refine ⟨{ storage with content := this }, w.eng, ?_, ?_⟩
    · simpa [construct_init, message_t.init, message_t.new] using h
    · simp [construct_init, message_t.init, message_t.new]

/-- What `rebuild(size_)` does on a message with `content != this`: it does not
stop at the assertion, keeps the address, and a status 0 is the status of a
native `zmq_msg_init_size` with `size_` on this address, which leaves the
message and the engine state stored. -/
theorem rebuild_size_facts (N : Native E) (m : message_t) (size_ : Nat) (w : World E)
    (h : m.base.content ≠ m.this) :
    (message_t.rebuild_size N m size_ w).status ≠ Outcome.assert_fail ∧
    (message_t.rebuild_size N m size_ w).obj.this = m.this ∧
    ((message_t.rebuild_size N m size_ w).status = Outcome.ret 0 →
      ∃ (m1 : zmq_msg_t) (e1 : E), (N.zmq_msg_init_size m.this m1 size_ e1).1 = 0 ∧
        (message_t.rebuild_size N m size_ w).obj.base =
          (N.zmq_msg_init_size m.this m1 size_ e1).2.1 ∧
        (message_t.rebuild_size N m size_ w).world.eng =
          (N.zmq_msg_init_size m.this m1 size_ e1).2.2) := by
  by_cases hrc : (N.zmq_msg_close m.this m.base w.eng).1 = 0
  · refine ⟨?_, ?_, ?_⟩
    · simp [message_t.rebuild_size, h, hrc]
    · simp [message_t.rebuild_size, h, hrc]
    · intro h2
      refine ⟨(N.zmq_msg_close m.this m.base w.eng).2.1,
        (N.zmq_msg_close m.this m.base w.eng).2.2, ?_, ?_, ?_⟩
      · simpa [message_t.rebuild_size, h, hrc] using h2
      · simp [message_t.rebuild_size, h, hrc]
      · simp [message_t.rebuild_size, h, hrc]
  · refine ⟨?_, ?_, ?_⟩
    · simp [message_t.rebuild_size, h, hrc]
    · simp [message_t.rebuild_size, h, hrc]
    · intro h2
      simp [message_t.rebuild_size, h, hrc] at h2

/-- On a message with `content != this`, `size()` returns what the native
`zmq_msg_size` reports for it. -/
theorem size_of_live (N : Native E) (m : message_t) (w : World E)
    (h : m.base.content ≠ m.this) :
    (message_t.size N m w).status = Outcome.ret (N.zmq_msg_size m.this m.base w.eng).1 := by
  simp [message_t.size, h]

/-- C4: for every size `n`, on an engine whose successful `zmq_msg_init` and
`zmq_msg_init_size` on this message leave `content` different from the
message's address and whose `zmq_msg_size` then reports the size given to
`zmq_msg_init_size`: `init()` on the default-constructed message passes its
assertion; if it returns 0, `rebuild(n)` passes its assertion; if that returns
0, the message has `content != this` and `size()` passes its assertion and
returns `n`. -/
theorem init_then_rebuild_size (N : Native E) (this : Ptr) (storage : zmq_msg_t) (n : Nat)
    (w : World E)
    (hinit : ∀ (m : zmq_msg_t) (e : E), (N.zmq_msg_init this m e).1 = 0 →
      (N.zmq_msg_init this m e).2.1.content ≠ this)
    (hsize : ∀ (m : zmq_msg_t) (e : E), (N.zmq_msg_init_size this m n e).1 = 0 →
      (N.zmq_msg_init_size this m n e).2.1.content ≠ this ∧
      (N.zmq_msg_size this (N.zmq_msg_init_size this m n e).2.1
        (N.zmq_msg_init_size this m n e).2.2).1 = n) :
    (construct_init N this storage w).status ≠ Outcome.assert_fail ∧
    ((construct_init N this storage w).status = Outcome.ret 0 →
      (construct_init_rebuild N this storage n w).status ≠ Outcome.assert_fail ∧
      ((construct_init_rebuild N this storage n w).status = Outcome.ret 0 →
        (construct_init_rebuild N this storage n w).obj.base.content ≠
          (construct_init_rebuild N this storage n w).obj.this ∧
        (construct_init_rebuild_size N this storage n w).status = Outcome.ret n)) := by
  obtain ⟨hn1, hthis1, hok1⟩ := construct_init_facts N this storage w
  refine ⟨hn1, ?_⟩
  intro h1
  obtain ⟨m0, e0, hrc0, hbase0⟩ := hok1 h1
  have hc1 : (construct_init N this storage w).obj.base.content ≠
      (construct_init N this storage w).obj.this := by
    rw [hthis1, hbase0]
    exact hinit m0 e0 hrc0
  obtain ⟨hn2, hthis2, hok2⟩ := rebuild_size_facts N (construct_init N this storage w).obj n
    (construct_init N this storage w).world hc1
  refine ⟨hn2, ?_⟩
  intro h2
  obtain ⟨m1, e1, hrc1, hbase1, heng1⟩ := hok2 h2
  rw [hthis1] at hrc1 hbase1 heng1 hthis2
  obtain ⟨hs1, hs2⟩ := hsize m1 e1 hrc1
  have hc2 : (construct_init_rebuild N this storage n w).obj.base.content ≠
      (construct_init_rebuild N this storage n w).obj.this := by
    unfold construct_init_rebuild
    rw [hthis2, hbase1]
    exact hs1
  refine ⟨hc2, ?_⟩
  unfold construct_init_rebuild_size
  rw [size_of_live N _ _ hc2]
  unfold construct_init_rebuild
  rw [hthis2, hbase1, heng1, hs2]

/-- Witness for C4 on the small engine: the message constructed at address
100, rebuilt with size 40. -/
theorem init_then_rebuild_size_witness :
    (construct_init toyNative 100 { content := 0, rest := [] } toyWorld).status
      = Outcome.ret 0 ∧
    (construct_init_rebuild toyNative 100 { content := 0, rest := [] } 40 toyWorld).status
      = Outcome.ret 0 ∧
    (construct_init_rebuild_size toyNative 100 { content := 0, rest := [] } 40 toyWorld).status
      = Outcome.ret 40 :=
  ⟨by decide, by decide,
   (((init_then_rebuild_size toyNative 100 { content := 0, rest := [] } 40 toyWorld
      (fun _ _ _ => (by decide : (32 : Nat) ≠ 100))
      (fun _ _ _ => ⟨(by decide : (32 : Nat) ≠ 100), rfl⟩)).2 (by decide)).2
      (by decide)).2⟩

/-- C7, as stated, fails: on the small engine, after `ctx.init(1)` and
`s.init(ctx, 2)` have both returned 0, `recv` on the socket and the message
just constructed at address 100 (`content == this`) does not stop at an
assertion; it calls the native `zmq_recv` on that message and returns its
status. -/
theorem recv_sentinel_message_counterexample :
    toyContext.status = Outcome.ret 0 ∧ toySocket.status = Outcome.ret 0 ∧
    (message_t.new 100 { content := 0, rest := [] }).base.content =
      (message_t.new 100 { content := 0, rest := [] }).this ∧
    (socket_t.recv toyNative toySocket.obj (message_t.new 100 { content := 0, rest := [] }) 0
      toySocket.world).status ≠ Outcome.assert_fail ∧
    (socket_t.recv toyNative toySocket.obj (message_t.new 100 { content := 0, rest := [] }) 0
      toySocket.world).status = Outcome.ret 0 ∧
    (socket_t.recv toyNative toySocket.obj (message_t.new 100 { content := 0, rest := [] }) 0
      toySocket.world).world.trace =
        [Call.zmq_init 1, Call.zmq_socket 7 2, Call.zmq_recv 8 100 0] := by
  decide

/-- C7, amended: `recv` checks the socket's handle only.  On a socket whose
handle is null it stops at the assertion without a native call, whatever the
message; on a socket with an acquired handle it makes the one native call
`zmq_recv` on that handle with the message and flags given, whatever the state
of the message, and returns its status. -/
theorem recv_checks_handle_only (N : Native E) (s : socket_t) (m : message_t)
    (flags_ : Int) (w : World E) :
    (s.ptr = NULL →
      socket_t.recv N s m flags_ w =
        { status := Outcome.assert_fail, obj := (s, m), world := w }) ∧
    (s.ptr ≠ NULL →
      socket_t.recv N s m flags_ w =
        { status := Outcome.ret (N.zmq_recv s.ptr m.this m.base flags_ w.eng).1,
          obj := (s, { m with base := (N.zmq_recv s.ptr m.this m.base flags_ w.eng).2.1 }),
          world := w.log (Call.zmq_recv s.ptr m.this flags_)
            (N.zmq_recv s.ptr m.this m.base flags_ w.eng).2.2 }) := by
  constructor
  · intro h
    simp [socket_t.recv, h]
  · intro h
    simp only [socket_t.recv]
    rw [if_pos h]

/-- Witness for C7 amended, on the small engine: `recv` on a socket that was
never initialised stops at the assertion and makes no native call. -/
theorem recv_checks_handle_only_witness :
    socket_t.new.ptr = NULL ∧
    socket_t.recv toyNative socket_t.new (message_t.new 100 { content := 0, rest := [] }) 0
        toyWorld =
      { status := Outcome.assert_fail,
        obj := (socket_t.new, message_t.new 100 { content := 0, rest := [] }),
        world := toyWorld } :=
  ⟨rfl, (recv_checks_handle_only toyNative socket_t.new
      (message_t.new 100 { content := 0, rest := [] }) 0 toyWorld).1 rfl⟩

/-- C8, as stated, fails: on the small engine, `init` on a fresh socket with a
context whose handle is null does not stop at an assertion; it calls the
native `zmq_socket` with the null context handle and returns -1. -/
theorem socket_init_null_context_counterexample :
    socket_t.new.ptr = NULL ∧ context_t.new.ptr = NULL ∧
    (socket_t.init toyNative socket_t.new context_t.new 3 toyWorld).status ≠
      Outcome.assert_fail ∧
    (socket_t.init toyNative socket_t.new context_t.new 3 toyWorld).status =
      Outcome.ret (-1) ∧
    (socket_t.init toyNative socket_t.new context_t.new 3 toyWorld).world.trace =
      [Call.zmq_socket 0 3] := by
  decide

/-- C8, amended: `init(context, type)` checks the socket's own handle only.
On a socket whose handle is null it makes the one native call `zmq_socket`
with the context's stored handle, null or not, and the type; it stores the
handle returned and returns 0 when that is non-null and -1 when it is null.
On a socket whose handle is non-null it stops at the assertion without a
native call. -/
theorem socket_init_checks_own_handle_only (N : Native E) (s : socket_t) (c : context_t)
    (type_ : Int) (w : World E) :
    (s.ptr = NULL →
      socket_t.init N s c type_ w =
        { status := Outcome.ret (if (N.zmq_socket c.ptr type_ w.eng).1 ≠ NULL then 0 else -1),
          obj := { ptr := (N.zmq_socket c.ptr type_ w.eng).1 },
          world := w.log (Call.zmq_socket c.ptr type_) (N.zmq_socket c.ptr type_ w.eng).2 }) ∧
    (s.ptr ≠ NULL →
      socket_t.init N s c type_ w =
        { status := Outcome.assert_fail, obj := s, world := w }) := by
  constructor
  · intro h
    simp only [socket_t.init]
    rw [if_pos h]
  · intro h
    simp only [socket_t.init]
    rw [if_neg h]

/-- Witness for C8 amended, on the small engine: a fresh socket on the context
with handle 5 gets the handle 7 and `init` returns 0. -/
theorem socket_init_checks_own_handle_only_witness :
    socket_t.new.ptr = NULL ∧
    socket_t.init toyNative socket_t.new { ptr := 5 } 3 toyWorld =
      { status := Outcome.ret 0, obj := { ptr := 7 },
        world := { eng := { next := 8 }, trace := [Call.zmq_socket 5 3] } } :=
  ⟨rfl, (socket_init_checks_own_handle_only toyNative socket_t.new { ptr := 5 } 3
      toyWorld).1 rfl⟩

/-- `init` leaves a socket with a non-null handle as it is. -/
theorem socket_init_of_acquired (N : Native E) (s : socket_t) (c : context_t)
    (type_ : Int) (w : World E) (h : s.ptr ≠ NULL) :
    socket_t.init N s c type_ w = { status := Outcome.assert_fail, obj := s, world := w } := by
  simp only [socket_t.init]
  rw [if_neg h]

/-- A member function other than `init` leaves the socket object as it is. -/
theorem socket_apply_obj (N : Native E) (op : socket_op) (s : socket_t) (w : World E)
    (h : op.is_init = false) : (socket_t.apply N op s w).obj = s := by
  cases op with
  | init c t => simp [socket_op.is_init] at h
  | to_voidp => simp only [socket_t.apply, Res.on_socket, socket_t.to_voidp]; split <;> rfl
  | setsockopt o v l =>
    simp only [socket_t.apply, Res.on_socket, socket_t.setsockopt]; split <;> rfl
  | getsockopt o v l =>
    simp only [socket_t.apply, Res.on_socket, socket_t.getsockopt]; split <;> rfl
  | bind a => simp only [socket_t.apply, Res.on_socket, socket_t.bind]; split <;> rfl
  | connect a => simp only [socket_t.apply, Res.on_socket, socket_t.connect]; split <;> rfl
  | send m f => simp only [socket_t.apply, Res.on_socket, socket_t.send]; split <;> rfl
  | recv m f => simp only [socket_t.apply, Res.on_socket, socket_t.recv]; split <;> rfl

/-- Any member function leaves a socket with a non-null handle as it is. -/
theorem socket_apply_obj_of_acquired (N : Native E) (op : socket_op) (s : socket_t)
    (w : World E) (h : s.ptr ≠ NULL) : (socket_t.apply N op s w).obj = s := by
  cases hop : op.is_init with
  | false => exact socket_apply_obj N op s w hop
  | true =>
    cases op with
    | init c t => simp [socket_t.apply, Res.on_socket, socket_init_of_acquired N s c t w h]
    | to_voidp => simp [socket_op.is_init] at hop
    | setsockopt o v l => simp [socket_op.is_init] at hop
    | getsockopt o v l => simp [socket_op.is_init] at hop
    | bind a => simp [socket_op.is_init] at hop
    | connect a => simp [socket_op.is_init] at hop
    | send m f => simp [socket_op.is_init] at hop
    | recv m f => simp [socket_op.is_init] at hop

/-- A sequence of member functions leaves a socket with a non-null handle as
it is. -/
theorem socket_run_obj_of_acquired (N : Native E) (ops : List socket_op) (s : socket_t)
    (w : World E) (h : s.ptr ≠ NULL) : (socket_t.run N ops s w).obj = s := by
  induction ops generalizing w with
  | nil => rfl
  | cons op ops ih =>
    have ho := socket_apply_obj_of_acquired N op s w h
    simp only [socket_t.run]
    split
    · exact ho
    · rw [ho]
      exact ih _

/-- C10: the handle of a socket is written by `init` only, and only when it is
null: `init` changes the socket object only if its handle was null, and on a
non-null handle it stops at the assertion.  Every other member function
leaves the socket object as it is.  On a socket with a non-null handle the
conversion returns the stored handle, and `setsockopt`, `getsockopt`, `bind`,
`connect`, `send` and `recv` each make one native call whose socket argument
is the stored handle.  After any sequence of member functions that does not
stop at an assertion, a handle that was non-null has the same value. -/
theorem socket_handle_invariant (N : Native E) (s : socket_t) (w : World E)
    (h : s.ptr ≠ NULL) :
    (∀ (s0 : socket_t) (c : context_t) (t : Int) (w0 : World E),
      (socket_t.init N s0 c t w0).obj ≠ s0 → s0.ptr = NULL) ∧
    (∀ (c : context_t) (t : Int),
      socket_t.init N s c t w = { status := Outcome.assert_fail, obj := s, world := w }) ∧
    (∀ (op : socket_op) (s0 : socket_t) (w0 : World E), op.is_init = false →
      (socket_t.apply N op s0 w0).obj = s0) ∧
    socket_t.to_voidp s w = { status := Outcome.ret s.ptr, obj := s, world := w } ∧
    (∀ (o : Int) (v : Ptr) (l : Nat),
      socket_t.setsockopt N s o v l w =
        { status := Outcome.ret (N.zmq_setsockopt s.ptr o v l w.eng).1, obj := s,
          world := w.log (Call.zmq_setsockopt s.ptr o v l)
            (N.zmq_setsockopt s.ptr o v l w.eng).2 }) ∧
    (∀ (o : Int) (v : Ptr) (l : Ptr),
      socket_t.getsockopt N s o v l w =
        { status := Outcome.ret (N.zmq_getsockopt s.ptr o v l w.eng).1, obj := s,
          world := w.log (Call.zmq_getsockopt s.ptr o v l)
            (N.zmq_getsockopt s.ptr o v l w.eng).2 }) ∧
    (∀ (a : Ptr),
      socket_t.bind N s a w =
        { status := Outcome.ret (N.zmq_bind s.ptr a w.eng).1, obj := s,
          world := w.log (Call.zmq_bind s.ptr a) (N.zmq_bind s.ptr a w.eng).2 }) ∧
    (∀ (a : Ptr),
      socket_t.connect N s a w =
        { status := Outcome.ret (N.zmq_connect s.ptr a w.eng).1, obj := s,
          world := w.log (Call.zmq_connect s.ptr a) (N.zmq_connect s.ptr a w.eng).2 }) ∧
    (∀ (m : message_t) (f : Int),
      socket_t.send N s m f w =
        { status := Outcome.ret (N.zmq_send s.ptr m.this m.base f w.eng).1,
          obj := (s, { m with base := (N.zmq_send s.ptr m.this m.base f w.eng).2.1 }),
          world := w.log (Call.zmq_send s.ptr m.this f)
            (N.zmq_send s.ptr m.this m.base f w.eng).2.2 }) ∧
    (∀ (m : message_t) (f : Int),
      socket_t.recv N s m f w =
        { status := Outcome.ret (N.zmq_recv s.ptr m.this m.base f w.eng).1,
          obj := (s, { m with base := (N.zmq_recv s.ptr m.this m.base f w.eng).2.1 }),
          world := w.log (Call.zmq_recv s.ptr m.this f)
            (N.zmq_recv s.ptr m.this m.base f w.eng).2.2 }) ∧
    (∀ (ops : List socket_op),
      (socket_t.run N ops s w).status ≠ Outcome.assert_fail →
      (socket_t.run N ops s w).obj.ptr = s.ptr) := by
  refine ⟨?_, ?_, ?_, ?_, ?_, ?_, ?_, ?_, ?_, ?_, ?_⟩
  · intro s0 c t w0 hne
    by_contra h0
    exact hne (by rw [socket_init_of_acquired N s0 c t w0 h0])
  · intro c t
    exact socket_init_of_acquired N s c t w h
  · intro op s0 w0 hop
    exact socket_apply_obj N op s0 w0 hop
  · simp only [socket_t.to_voidp]
    rw [if_pos h]
  · intro o v l
    simp only [socket_t.setsockopt]
    rw [if_pos h]
  · intro o v l
    simp only [socket_t.getsockopt]
    rw [if_pos h]
  · intro a
    simp only [socket_t.bind]
    rw [if_pos h]
  · intro a
    simp only [socket_t.connect]
    rw [if_pos h]
  · intro m f
    simp only [socket_t.send]
    rw [if_pos h]
  · intro m f
    simp only [socket_t.recv]
    rw [if_pos h]
  · intro ops _
    rw [socket_run_obj_of_acquired N ops s w h]

/-- Witness for C10 on the small engine: a run of seven calls on the socket
with handle 7 ends without an assertion and with handle 7. -/
theorem socket_handle_invariant_witness :
    (socket_t.run toyNative
      [socket_op.setsockopt 6 200 4, socket_op.bind 300, socket_op.connect 300,
       socket_op.send { this := 100, base := { content := 32, rest := [0] } } 0,
       socket_op.recv { this := 100, base := { content := 32, rest := [0] } } 0,
       socket_op.getsockopt 6 200 208, socket_op.to_voidp]
      { ptr := 7 } toyWorld).status = Outcome.ret () ∧
    (socket_t.run toyNative
      [socket_op.setsockopt 6 200 4, socket_op.bind 300, socket_op.connect 300,
       socket_op.send { this := 100, base := { content := 32, rest := [0] } } 0,
       socket_op.recv { this := 100, base := { content := 32, rest := [0] } } 0,
       socket_op.getsockopt 6 200 208, socket_op.to_voidp]
      { ptr := 7 } toyWorld).obj.ptr = 7 :=
  ⟨by decide,
   (socket_handle_invariant toyNative { ptr := 7 } toyWorld (by decide)).2.2.2.2.2.2.2.2.2.2
      [socket_op.setsockopt 6 200 4, socket_op.bind 300, socket_op.connect 300,
       socket_op.send { this := 100, base := { content := 32, rest := [0] } } 0,
       socket_op.recv { this := 100, base := { content := 32, rest := [0] } } 0,
       socket_op.getsockopt 6 200 208, socket_op.to_voidp]
      (by decide)⟩

end Theorems

end zmq.nothrow
